import Mathlib

/-!
Verification of the VW CDC / BT1036 bridge firmware core.

This file shallowly embeds the two protocol engines of the repository:
* `src/vw_cdc.cpp` — the pulse-width decoder (`vw_dataout_isr`), the packet
  scanner (`vw_scanCommandBytes`) and the CDC frame encoder (`cdc_loop`);
* `src/bt1036_at.cpp` — the AT command queue, the response parser
  (`handleLine`) and the connection state machine (`setBtState`).

Machine integers are modelled as `Nat` with explicit `% 256` / `% 2^32`
where the C code truncates.  Stateful code is modelled by explicit state
passing; callback invocations and log side effects relevant to the claims
are collected into event lists.
-/

namespace VWCDC

/-! ### Pulse classification (`vw_dataout_isr`, rising-edge branch)

Thresholds from `vw_cdc.cpp` lines 90-92:
`VW_START_THRESHOLD = 3200`, `VW_HIGH_THRESHOLD = 1248`,
`VW_LOW_THRESHOLD = 256`; the ISR additionally discards pulses `< 100`. -/

inductive PulseClass where
  | noise
  | start
  | one
  | zero
  deriving DecidableEq, Repr

/-- The classification of a LOW-pulse duration (µs), mirroring the decision
sequence of the rising-edge branch of `vw_dataout_isr`
(`vw_cdc.cpp` lines 141-167). -/
def classifyPulse (lowDuration : Nat) : PulseClass :=
  if lowDuration < 100 then .noise
  else if lowDuration < 256 then .noise
  else if lowDuration ≥ 3200 then .start
  else if lowDuration ≥ 1248 then .one
  else .zero

/-- Bit-capture state of the decoder ISR: `vw_capBusy`, `vw_capBit`,
`vw_capBitPacket`, `vw_currentByte`, the 24-byte ring buffer `vw_capBuffer`
and its write pointer `vw_capPtr` (`vw_cdc.cpp` lines 96-105). -/
structure CapState where
  capBusy : Bool
  capBit : Nat
  capBitPacket : Nat
  currentByte : Nat
  capBuffer : Nat → Nat
  capPtr : Nat

/-- The rising-edge body of `vw_dataout_isr` (`vw_cdc.cpp` lines 129-195):
noise suppression, start-marker detection, bit assembly (shift left, new bit
into the LSB), byte push into the ring buffer after 8 bits, packet end after
32 bits. -/
def vw_isrRising (s : CapState) (lowDuration : Nat) : CapState :=
  if lowDuration < 100 then s
  else if lowDuration < 256 then s
  else if lowDuration ≥ 3200 then
    { s with capBusy := true, capBitPacket := 32, capBit := 8, currentByte := 0 }
  else if !s.capBusy || s.capBitPacket == 0 then s
  else
    let bitValue : Nat := if lowDuration ≥ 1248 then 1 else 0
    let cur := (s.currentByte * 2 + bitValue) % 256
    let capBit := s.capBit - 1
    let capBitPacket := s.capBitPacket - 1
    let s' :=
      if capBit == 0 then
        { s with
          capBuffer := fun i => if i = s.capPtr % 24 then cur else s.capBuffer i,
          capPtr := (s.capPtr + 1) % 24,
          capBit := 8, currentByte := 0, capBitPacket := capBitPacket }
      else
        { s with capBit := capBit, currentByte := cur, capBitPacket := capBitPacket }
    if capBitPacket == 0 then { s' with capBusy := false } else s'

/-! ### Packet scanner (`vw_scanCommandBytes`) -/

inductive CdcButton where
  | nextTrack
  | prevTrack
  | nextDisc
  | prevDisc
  | playPause
  | scanToggle
  | randomToggle
  | stop
  | disc1
  | disc2
  | disc3
  | disc4
  | disc5
  | disc6
  | unknown
  deriving DecidableEq, Repr

/-- The `switch (cmdcode)` mapping of `vw_scanCommandBytes`
(`vw_cdc.cpp` lines 256-276); unmatched codes and the deliberately-inert
codes 0x14 / 0x38 stay `unknown`. -/
def mapButton (cmdcode : Nat) : CdcButton :=
  if cmdcode = 0xF8 then .nextTrack
  else if cmdcode = 0x78 then .prevTrack
  else if cmdcode = 0x0C then .disc1
  else if cmdcode = 0x8C then .disc2
  else if cmdcode = 0x4C then .disc3
  else if cmdcode = 0xCC then .disc4
  else if cmdcode = 0x2C then .disc5
  else if cmdcode = 0xAC then .disc6
  else if cmdcode = 0xA0 then .scanToggle
  else if cmdcode = 0xE0 then .randomToggle
  else .unknown

/-- Outcome of one iteration of the `while` loop in `vw_scanCommandBytes`. -/
inductive ScanOutcome where
  | waitData
  | resync (p : Nat)
  | frameOk (p : Nat) (btn : CdcButton)
  deriving Repr

/-- One iteration of the scan loop of `vw_scanCommandBytes`
(`vw_cdc.cpp` lines 204-284): preamble search, 4-byte availability check,
checksum `byte3 + byte4 ≡ 0xFF (mod 256)`, multiple-of-4 check, button
mapping.  On any validation failure the scan pointer advances by one; on
success it advances by four. -/
def scanStep (buf : Nat → Nat) (scanPtr capPtr : Nat) : ScanOutcome :=
  let byte1 := buf (scanPtr % 24)
  if byte1 ≠ 0x53 then .resync ((scanPtr + 1) % 24)
  else
    let available := if capPtr ≥ scanPtr then capPtr - scanPtr
                     else 24 - scanPtr + capPtr
    if available < 4 then .waitData
    else
      let byte2 := buf ((scanPtr + 1) % 24)
      let byte3 := buf ((scanPtr + 2) % 24)
      let byte4 := buf ((scanPtr + 3) % 24)
      if byte2 ≠ 0x2C then .resync ((scanPtr + 1) % 24)
      else if (byte3 + byte4) % 256 ≠ 0xFF then .resync ((scanPtr + 1) % 24)
      else if byte3 % 4 ≠ 0 then .resync ((scanPtr + 1) % 24)
      else .frameOk ((scanPtr + 4) % 24) (mapButton byte3)

/-- The scan loop of `vw_scanCommandBytes`, with explicit fuel (the loop
consumes at least one available byte per iteration and at most 23 bytes are
available, so fuel 24 always suffices).  The returned list collects the
button-callback invocations (`g_btnCb` is only called for non-`unknown`
buttons, `vw_cdc.cpp` line 279). -/
def scanLoop (buf : Nat → Nat) (capPtr : Nat) :
    Nat → Nat → List CdcButton → Nat × List CdcButton
  | 0, scanPtr, acc => (scanPtr, acc)
  | fuel + 1, scanPtr, acc =>
    if scanPtr = capPtr then (scanPtr, acc)
    else
      match scanStep buf scanPtr capPtr with
      | .waitData => (scanPtr, acc)
      | .resync p => scanLoop buf capPtr fuel p acc
      | .frameOk p btn =>
          scanLoop buf capPtr fuel p
            (acc ++ if btn = CdcButton.unknown then [] else [btn])

/-- `vw_scanCommandBytes`: scan the ring buffer from `scanPtr` up to
`capPtr`, returning the final scan pointer and the callback invocations. -/
def vw_scanCommandBytes (buf : Nat → Nat) (scanPtr capPtr : Nat) :
    Nat × List CdcButton :=
  scanLoop buf capPtr 24 scanPtr []

/-- A ring-buffer content built from a list of byte values (unwritten cells
read as 0). -/
def bufOfList (l : List Nat) : Nat → Nat := fun i => l.getD i 0

/-! ### CDC frame encoder (`cdc_loop` state machine) -/

/-- `toBCD` (`vw_cdc.cpp` lines 10-13). -/
def toBCD (v : Nat) : Nat :=
  let val := if v > 99 then 99 else v
  ((val / 10) <<< 4) ||| (val % 10)

inductive CdcPlayState where
  | stopped
  | playing
  | paused
  deriving DecidableEq, Repr

/-- The four states of the `cdc_loop` static state machine
(`ST_IDLE_THEN_PLAY`, `ST_INIT_PLAY`, `ST_PLAY_LEAD_IN`, `ST_PLAY`). -/
inductive EncPhase where
  | idleThenPlay
  | initPlay
  | playLeadIn
  | play
  deriving DecidableEq, Repr

/-- The persistent encoder state: the statics of `cdc_loop` (`state`,
`stateCounter`, `initStarted`) together with the file-scope globals it
reads (`g_status`, `g_discLoad`, `g_playMinutes`, `g_playSeconds`,
`g_modeByte`, `g_scanByte`). -/
structure EncState where
  initStarted : Bool
  phase : EncPhase
  stateCounter : Int
  discLoad : Nat
  disc : Nat
  track : Nat
  playState : CdcPlayState
  randomOn : Bool
  scanOn : Bool
  playMinutes : Nat
  playSeconds : Nat
  modeByte : Nat
  scanByte : Nat
  deriving DecidableEq, Repr

/-- Clamping of `g_status.disc` at the top of the 50ms branch of
`cdc_loop` (`vw_cdc.cpp` line 430). -/
def clampDisc (d : Nat) : Nat := if d < 1 then 1 else if d > 6 then 6 else d

/-- Clamping of `g_status.track` (`vw_cdc.cpp` line 431). -/
def clampTrack (t : Nat) : Nat := if t < 1 then 1 else if t > 99 then 99 else t

/-- The state-dependent part of one `cdc_loop` tick: the `if/else if`
chain on `state` (`vw_cdc.cpp` lines 441-624), applied to the
already-clamped `disc`/`track` values. -/
def cdcTickBody (s : EncState) (disc track : Nat) : EncState × List Nat :=
  match s.phase with
  | .idleThenPlay =>
    let frame := [0x74, (0xBF - disc) % 256, (0xFF - track) % 256,
                  0xFF, 0xFF, 0xFF, 0x8F, 0x7C]
    let c := s.stateCounter + 1
    if c ≥ 0 then
      ({ s with phase := .initPlay, stateCounter := -24, discLoad := 0x2E },
       frame)
    else ({ s with stateCounter := c }, frame)
  | .initPlay =>
    let isAnnounce := s.stateCounter % 2 == 0
    let frame :=
      if isAnnounce then
        [0x34, s.discLoad % 256, 0xFF - 0x99, 0xFF - 0x99,
         0xFF - 0x59, 0xB7, 0xFF, 0x3C]
      else
        [0x34, (0xBF - disc) % 256, (0xFF - track) % 256,
         0xFF, 0xFF, 0xFF, 0xEF, 0x3C]
    let s1 :=
      if isAnnounce then
        if s.discLoad = 0x29 then { s with discLoad := 0x2E }
        else { s with discLoad := s.discLoad - 1 }
      else s
    let c := s1.stateCounter + 1
    if c ≥ 0 then
      ({ s1 with phase := .playLeadIn, stateCounter := -10 }, frame)
    else ({ s1 with stateCounter := c }, frame)
  | .playLeadIn =>
    let isAnnounce := s.stateCounter % 2 == 0
    let frame :=
      if isAnnounce then
        [0x34, ((disc % 16) ||| 0x20) % 256, 0xFF - 0x99, 0xFF - 0x99,
         0xFF - 0x59, 0xB7, 0xFF, 0x3C]
      else
        [0x34, (0xBF - disc) % 256, (0xFF - track) % 256,
         0xFF, 0xFF, 0xFF, 0xAE, 0x3C]
    let c := s.stateCounter + 1
    if c ≥ 0 then ({ s with phase := .play, stateCounter := c }, frame)
    else ({ s with stateCounter := c }, frame)
  | .play =>
    let trackBCD := toBCD track
    let minBCD := toBCD s.playMinutes
    let secBCD := toBCD s.playSeconds
    (s, [0x34, (0xBF - disc) % 256, (0xFF - trackBCD) % 256,
         (0xFF - minBCD) % 256, (0xFF - secBCD) % 256,
         s.modeByte % 256, s.scanByte % 256, 0x3C])

/-- One 50ms tick of the `cdc_loop` state machine (`vw_cdc.cpp` lines
427-625): returns the next state and the 8-byte frame sent over SPI.
All frame bytes are reduced `% 256` where the C code truncates to
`uint8_t` (the subtractions cannot underflow thanks to the clamps).
The first tick performs the `initStarted` initialisation
(`vw_cdc.cpp` lines 433-438). -/
def cdcTick (s0 : EncState) : EncState × List Nat :=
  let disc := clampDisc s0.disc
  let track := clampTrack s0.track
  let s := if !s0.initStarted then
             { s0 with initStarted := true, phase := .idleThenPlay,
                       stateCounter := -20 }
           else s0
  cdcTickBody s disc track

/-- The state part of a tick. -/
def cdcTickS (s : EncState) : EncState := (cdcTick s).1

/-- The encoder state right after `cdc_init` (`vw_cdc.cpp` lines 344-386
and the initialisers of the statics/globals). -/
def cdcInitState : EncState :=
  { initStarted := false, phase := .idleThenPlay, stateCounter := 0,
    discLoad := 0x2E, disc := 1, track := 1, playState := .playing,
    randomOn := false, scanOn := false, playMinutes := 0, playSeconds := 0,
    modeByte := 0x00, scanByte := 0xCF }

/-- The encoder state after `n` 50ms ticks from the freshly initialised
state. -/
def stateAfter (n : Nat) : EncState :=
  Nat.iterate cdcTickS n cdcInitState

/-- The encoder phase after `n` 50ms ticks from the freshly initialised
state. -/
def phaseAfter (n : Nat) : EncPhase := (stateAfter n).phase

/-- `cdc_setDiscTrack` (`vw_cdc.cpp` lines 629-634): sets disc and track
and resets the play time to 0:00; it touches nothing else. -/
def cdc_setDiscTrack (s : EncState) (d t : Nat) : EncState :=
  { s with disc := d % 256, track := t % 256, playMinutes := 0,
           playSeconds := 0 }

/-- The mode-byte table of `updateModeBytes` (`vw_cdc.cpp` lines 642-661). -/
def modeByteOf (scanOn randomOn : Bool) : Nat :=
  if scanOn && randomOn then 0xD4
  else if scanOn then 0xD0
  else if randomOn then 0x04
  else 0x00

/-- `cdc_setRandom` (`vw_cdc.cpp` lines 678-681): sets the flag and
recomputes `g_modeByte` / `g_scanByte` via `updateModeBytes`. -/
def cdc_setRandom (s : EncState) (o : Bool) : EncState :=
  let s := { s with randomOn := o }
  { s with modeByte := modeByteOf s.scanOn s.randomOn, scanByte := 0xCF }

/-- `cdc_setScan` (`vw_cdc.cpp` lines 683-686). -/
def cdc_setScan (s : EncState) (o : Bool) : EncState :=
  let s := { s with scanOn := o }
  { s with modeByte := modeByteOf s.scanOn s.randomOn, scanByte := 0xCF }

/-- Rank of a phase in the forward-only progression. -/
def phaseRank : EncPhase → Nat
  | .idleThenPlay => 0
  | .initPlay => 1
  | .playLeadIn => 2
  | .play => 3

end VWCDC

namespace BT1036

/-! ### Arduino `String` helpers

`bt1036_at.cpp` manipulates Arduino `String`s; lines are modelled as
`List Char`.  `trim` removes leading/trailing `isspace` characters,
`toInt` has `atol` semantics (skip spaces, optional sign, leading digits,
0 when none), `indexOf` returns -1 when absent. -/

def isSpaceChar (c : Char) : Bool :=
  c == ' ' || c == '\t' || c == '\n' || c == '\x0b' || c == '\x0c' || c == '\r'

def trimChars (l : List Char) : List Char :=
  ((l.dropWhile isSpaceChar).reverse.dropWhile isSpaceChar).reverse

def digitsValue (l : List Char) : Nat :=
  (l.takeWhile Char.isDigit).foldl (fun a c => a * 10 + (c.toNat - 48)) 0

/-- Arduino `String::toInt` (`atol`). -/
def atolChars (l : List Char) : Int :=
  match l.dropWhile isSpaceChar with
  | '-' :: rest => -(digitsValue rest : Int)
  | '+' :: rest => (digitsValue rest : Int)
  | rest => (digitsValue rest : Int)

/-- Arduino `String::indexOf(ch, fromIndex)`: -1 when not found. -/
def indexOfFrom (l : List Char) (ch : Char) (fromIdx : Nat) : Int :=
  match (l.drop fromIdx).findIdx? (· == ch) with
  | some i => (i + fromIdx : Nat)
  | none => -1

/-- Arduino `String::substring(from, to)` for in-range arguments. -/
def listSub (l : List Char) (a b : Nat) : List Char := (l.drop a).take (b - a)

/-- Reinterpretation of a C `int`/`long` value as an unsigned 32-bit value
(assignment to `uint32_t`, bit tests). -/
def toU32 (v : Int) : Nat := (v % (2 ^ 32 : Int)).toNat

/-- `millis() - t` on 32-bit unsigned arithmetic. -/
def u32sub (a b : Nat) : Nat := (a % 2 ^ 32 + (2 ^ 32 - b % 2 ^ 32)) % 2 ^ 32

/-! ### Command queue (`bt1036_at.cpp` lines 8-56)

`CMD_QUEUE_SIZE = 10`; `queueHead`/`queueTail` are indices modulo 10. -/

structure CmdQueue where
  qhead : Fin 10
  qtail : Fin 10
  store : Fin 10 → List Char

/-- `queueIsEmpty`. -/
def queueIsEmpty (q : CmdQueue) : Bool := q.qhead == q.qtail

/-- `queueIsFull`: `(queueTail + 1) % CMD_QUEUE_SIZE == queueHead`. -/
def queueIsFull (q : CmdQueue) : Bool := q.qtail + 1 == q.qhead

/-- `queuePush`: a push on a full queue is dropped (only a log line). -/
def queuePush (q : CmdQueue) (cmd : List Char) : CmdQueue :=
  if queueIsFull q then q
  else
    { q with store := fun i => if i = q.qtail then cmd else q.store i,
             qtail := q.qtail + 1 }

/-- `queueFront`. -/
def queueFront (q : CmdQueue) : List Char :=
  if queueIsEmpty q then [] else q.store q.qhead

/-- `queuePop`. -/
def queuePop (q : CmdQueue) : CmdQueue :=
  if queueIsEmpty q then q else { q with qhead := q.qhead + 1 }

/-- Number of queued commands. -/
def queueLen (q : CmdQueue) : Nat := (q.qtail.val + 10 - q.qhead.val) % 10

/-- The queued commands in FIFO order. -/
def queueList (q : CmdQueue) : List (List Char) :=
  (List.range (queueLen q)).map fun i =>
    q.store ⟨(q.qhead.val + i) % 10, Nat.mod_lt _ (by omega)⟩

/-- The queue as left by `bt1036_init` before the startup pushes
(`queueHead = queueTail = 0`). -/
def emptyCmdQueue : CmdQueue := ⟨0, 0, fun _ => []⟩

/-! ### Connection state machine and response parser -/

inductive BTConnState where
  | disconnected
  | connecting
  | connectedIdle
  | playing
  | paused
  deriving DecidableEq, Repr

structure BtDevStat where
  powerOn : Bool
  brDiscoverable : Bool
  bleAdvertising : Bool
  brScanning : Bool
  bleScanning : Bool
  deriving DecidableEq, Repr

structure TrackInfo where
  elapsedSec : Nat
  totalSec : Nat
  title : List Char
  artist : List Char
  album : List Char
  valid : Bool
  deriving DecidableEq, Repr

/-- Observable side effects of the driver relevant to the claims:
observer callback invocations, command completions (success / error /
timeout), UART sends and the `cdc_setPlayTime` cross-call. -/
inductive BtEvent where
  | stateChange (old new : BTConnState)
  | cmdDoneOk
  | cmdDoneError (cmd : List Char)
  | cmdTimeout (cmd : List Char)
  | sent (cmd : List Char)
  | setPlayTime (m s : Nat)
  deriving DecidableEq, Repr

/-- The mutable module state of `bt1036_at.cpp`: the queue, the in-flight
flag and timestamp, the RX line buffer, `btState`, `devStat`,
`g_trackInfo` and the background-poll timestamp. -/
structure BtDriver where
  queue : CmdQueue
  cmdInProgress : Bool
  cmdTimestamp : Nat
  rxLine : List Char
  btState : BTConnState
  devStat : BtDevStat
  trackInfo : TrackInfo
  lastStatPollMs : Nat

/-- `setBtState` (`bt1036_at.cpp` lines 59-75): no-op when the state is
unchanged; otherwise update and invoke the single observer with
`(old, new)`. -/
def setBtState (st : BtDriver) (newState : BTConnState) :
    BtDriver × List BtEvent :=
  if newState = st.btState then (st, [])
  else ({ st with btState := newState },
        [.stateChange st.btState newState])

/-- `updateDevStat` (`bt1036_at.cpp` lines 91-106). -/
def updateDevStat (st : BtDriver) (val : Int) : BtDriver :=
  let v := toU32 val
  { st with devStat :=
      { powerOn := v &&& 0b00001 ≠ 0
        brDiscoverable := v &&& 0b00010 ≠ 0
        bleAdvertising := v &&& 0b00100 ≠ 0
        brScanning := v &&& 0b01000 ≠ 0
        bleScanning := v &&& 0b10000 ≠ 0 } }

/-- `handleLine` (`bt1036_at.cpp` lines 109-260): classify one completed
inbound line.  `OK` / `ERROR` / `ERR` close the in-flight command; the
fixed status prefixes update state without touching the in-flight slot;
anything else is ignored. -/
def handleLine (st : BtDriver) (lineIn : List Char) :
    BtDriver × List BtEvent :=
  if lineIn.isEmpty then (st, [])
  else
    let line := trimChars lineIn
    if line = "OK".data then
      if st.cmdInProgress then
        let q := if queueIsEmpty st.queue then st.queue else queuePop st.queue
        ({ st with cmdInProgress := false, queue := q }, [.cmdDoneOk])
      else (st, [])
    else if "ERROR".data.isPrefixOf line || "ERR".data.isPrefixOf line then
      if st.cmdInProgress then
        let cur := queueFront st.queue
        let q := if queueIsEmpty st.queue then st.queue else queuePop st.queue
        ({ st with cmdInProgress := false, queue := q }, [.cmdDoneError cur])
      else (st, [])
    else if "+A2DPSTAT=".data.isPrefixOf line then
      let v := atolChars (line.drop 10)
      if v = 0 ∨ v = 1 then setBtState st .disconnected
      else if v = 2 then setBtState st .connecting
      else if v = 3 then setBtState st .connectedIdle
      else if v = 4 then setBtState st .paused
      else if v = 5 then setBtState st .playing
      else (st, [])
    else if "+A2DPINFO=".data.isPrefixOf line then (st, [])
    else if "+AVRCPSTAT=".data.isPrefixOf line then (st, [])
    else if "+BROWDATA=".data.isPrefixOf line then (st, [])
    else if "+PLAYSTAT=".data.isPrefixOf line then
      let v := atolChars (line.drop 10)
      if v = 0 then setBtState st .connectedIdle
      else if v = 1 then setBtState st .playing
      else if v = 2 then setBtState st .paused
      else if v = 3 ∨ v = 4 then setBtState st .playing
      else (st, [])
    else if "+DEVSTAT=".data.isPrefixOf line then
      (updateDevStat st (atolChars (line.drop 9)), [])
    else if "+NAME=".data.isPrefixOf line then (st, [])
    else if "+LENAME=".data.isPrefixOf line then (st, [])
    else if "+TRACKSTAT=".data.isPrefixOf line then
      let params := line.drop 11
      let comma1 := indexOfFrom params ',' 0
      let comma2 := indexOfFrom params ',' (comma1 + 1).toNat
      if comma1 > 0 ∧ comma2 > comma1 then
        let elapsed := toU32 (atolChars (listSub params (comma1 + 1).toNat
                                                 comma2.toNat))
        let total := toU32 (atolChars (params.drop (comma2 + 1).toNat))
        let ti := { st.trackInfo with
                    elapsedSec := elapsed, totalSec := total, valid := true }
        ({ st with trackInfo := ti },
         [.setPlayTime ((elapsed / 60) % 256) ((elapsed % 60) % 256)])
      else (st, [])
    else if "+TRACKINFO=".data.isPrefixOf line then
      let params := line.drop 11
      let comma1 := indexOfFrom params ',' 0
      let comma2 := indexOfFrom params ',' (comma1 + 1).toNat
      if comma1 > 0 then
        let title := trimChars (listSub params 0 comma1.toNat)
        let (artist, album) :=
          if comma2 > comma1 then
            (trimChars (listSub params (comma1 + 1).toNat comma2.toNat),
             trimChars (params.drop (comma2 + 1).toNat))
          else
            (trimChars (params.drop (comma1 + 1).toNat), ([] : List Char))
        ({ st with trackInfo :=
             { st.trackInfo with title := title, artist := artist,
                                 album := album, valid := true } }, [])
      else (st, [])
    else (st, [])

/-- The UART-receive inner loop of `bt1036_loop` (`bt1036_at.cpp` lines
288-301): CR discarded, LF completes a line, lines over 250 characters
reset the buffer. -/
def btRxStep (acc : BtDriver × List BtEvent) (c : Char) :
    BtDriver × List BtEvent :=
  let (st, evs) := acc
  if c = '\r' then (st, evs)
  else if c = '\n' then
    if st.rxLine.isEmpty then (st, evs)
    else
      let r := handleLine st st.rxLine
      ({ r.1 with rxLine := [] }, evs ++ r.2)
  else
    let rx := st.rxLine ++ [c]
    ({ st with rxLine := if rx.length > 250 then [] else rx }, evs)

/-- One call to `bt1036_loop` (`bt1036_at.cpp` lines 284-325): UART
receive, command-timeout handling, dispatch of the next queued command,
and the 3-second background status poll. -/
def bt1036_loop (st0 : BtDriver) (input : List Char) (now : Nat) :
    BtDriver × List BtEvent :=
  let r1 := input.foldl btRxStep (st0, [])
  let r2 :=
    if r1.1.cmdInProgress ∧ u32sub now r1.1.cmdTimestamp > 2000 then
      let cur := queueFront r1.1.queue
      let evs := if cur.length ≠ 0 then r1.2 ++ [.cmdTimeout cur] else r1.2
      let q := if queueIsEmpty r1.1.queue then r1.1.queue
               else queuePop r1.1.queue
      ({ r1.1 with cmdInProgress := false, queue := q }, evs)
    else r1
  let r3 :=
    if ¬r2.1.cmdInProgress ∧ ¬(queueIsEmpty r2.1.queue = true) then
      ({ r2.1 with cmdInProgress := true, cmdTimestamp := now },
       r2.2 ++ [.sent (queueFront r2.1.queue)])
    else r2
  if ¬r3.1.cmdInProgress ∧ u32sub now r3.1.lastStatPollMs > 3000 then
    ({ r3.1 with
        queue := queuePush (queuePush r3.1.queue "AT+A2DPSTAT".data)
                   "AT+DEVSTAT".data,
        lastStatPollMs := now }, r3.2)
  else r3

/-- A concrete driver state used to instantiate the universally quantified
theorems: two startup commands queued, one command in flight since
`millis() = 100`, connected-idle. -/
def demoDriver : BtDriver :=
  { queue := queuePush (queuePush emptyCmdQueue "AT".data) "AT+VER".data,
    cmdInProgress := true, cmdTimestamp := 100, rxLine := [],
    btState := .connectedIdle,
    devStat := ⟨false, false, false, false, false⟩,
    trackInfo := ⟨0, 0, [], [], [], false⟩,
    lastStatPollMs := 0 }

end BT1036

/-- A concrete mid-packet capture state (byte in progress `0x15`). -/
def VWCDC.capDemoState : VWCDC.CapState :=
  ⟨true, 8, 32, 0x15, fun _ => 0, 0⟩

/-! ## Theorems -/

section Theorems

open VWCDC BT1036

/-- Helper: 32-bit `millis` subtraction is plain subtraction when no
wraparound occurred. -/
theorem u32sub_of_le (a b : Nat) (hb : b ≤ a) (ha : a < 2 ^ 32) :
    u32sub a b = a - b := by
  unfold u32sub
  omega

/-- Helper: the ring-buffer full test is equivalent to holding 9 entries. -/
theorem fin10_full_iff :
    ∀ (h t : Fin 10), t + 1 = h ↔ (t.val + 10 - h.val) % 10 = 9 := by
  decide

/-- Helper: the queue never holds more than 9 commands. -/
theorem queueLen_le_nine (q : CmdQueue) : queueLen q ≤ 9 := by
  unfold queueLen
  omega

/-- C1 counterexample: the claim classifies a 3199µs LOW pulse as a zero,
but the code (`lowDuration >= VW_HIGH_THRESHOLD`, i.e. `3199 ≥ 1248`)
classifies it as a logical one. -/
theorem classifyPulse_3199_not_zero :
    classifyPulse 3199 = PulseClass.one ∧
    classifyPulse 3199 ≠ PulseClass.zero := by
  decide

/-- C1 (amended): the pulse classifier is a pure function of the LOW
duration with boundaries 3199µs → one, 3200µs → start; 1247µs → zero,
1248µs → one; 255µs → noise and 256µs → zero.  A 255µs pulse leaves the
capture state untouched (discarded from decoding); a 256µs pulse in a
fresh packet is accepted as a data bit 0 (byte shifted left, packet bit
count decremented). -/
theorem classifyPulse_boundaries :
    classifyPulse 3199 = PulseClass.one ∧
    classifyPulse 3200 = PulseClass.start ∧
    classifyPulse 1247 = PulseClass.zero ∧
    classifyPulse 1248 = PulseClass.one ∧
    classifyPulse 255 = PulseClass.noise ∧
    classifyPulse 256 = PulseClass.zero ∧
    (∀ s : CapState, vw_isrRising s 255 = s) ∧
    (∀ s : CapState, s.capBusy = true → s.capBitPacket = 32 → s.capBit = 8 →
       (vw_isrRising s 256).currentByte = s.currentByte * 2 % 256 ∧
       (vw_isrRising s 256).capBitPacket = 31) := by
  refine ⟨by decide, by decide, by decide, by decide, by decide, by decide,
          fun s => rfl, fun s h1 h2 h3 => ?_⟩
  simp [vw_isrRising, h1, h2, h3]

/-- C1 witness: the capture-state clauses at the concrete state
`capDemoState`. -/
theorem classifyPulse_boundaries_witness :
    vw_isrRising capDemoState 255 = capDemoState ∧
    ((vw_isrRising capDemoState 256).currentByte =
       capDemoState.currentByte * 2 % 256 ∧
     (vw_isrRising capDemoState 256).capBitPacket = 31) :=
  ⟨classifyPulse_boundaries.2.2.2.2.2.2.1 capDemoState,
   classifyPulse_boundaries.2.2.2.2.2.2.2 capDemoState rfl rfl rfl⟩

/-- C2 counterexample: the frame `53 2C 14 EB` passes every validation
(code `0x14` is a multiple of 4 with correct complement) and the scan
pointer advances by 4, but the button callback is never invoked — `0x14`
is a deliberately-inert code mapped to `unknown`, contradicting "invokes
the registered callback with exactly one mapped button event". -/
theorem scan_valid_frame_0x14_no_callback :
    0x14 % 4 = 0 ∧ (0x14 + 0xEB) % 256 = 0xFF ∧
    vw_scanCommandBytes (bufOfList [0x53, 0x2C, 0x14, 0xEB]) 0 4 =
      (4, []) := by
  decide

/-- C3: in the Play phase with disc=1, track=5, minutes=3, seconds=45 and
scan/random both switched off through the setters, the emitted frame is
`34 BE FA FC BA 00 CF 3C` (disc as 0xBF-disc; track, minutes, seconds
BCD-encoded then subtracted from 0xFF; mode byte 0x00; status byte
0xCF). -/
theorem play_frame_encoding :
    modeByteOf false false = 0x00 ∧
    (cdcTick (cdc_setScan (cdc_setRandom
        { cdcInitState with initStarted := true, phase := .play,
                            disc := 1, track := 5, playMinutes := 3,
                            playSeconds := 45 } false) false)).2
      = [0x34, 0xBE, 0xFA, 0xFC, 0xBA, 0x00, 0xCF, 0x3C] := by
  decide

/-- C5: for any sequence of enqueue calls the queued length never exceeds
10, and an enqueue on a full queue returns the queue completely unchanged
(entries, order, indices) — the only other effect in the code is a log
line, and the caller receives no error signal (`queuePush` returns
nothing). -/
theorem queue_capacity_bound :
    (∀ (q0 : CmdQueue) (cmds : List (List Char)),
       queueLen (cmds.foldl queuePush q0) ≤ 10) ∧
    (∀ (q : CmdQueue) (c : List Char), queueIsFull q = true →
       queuePush q c = q) := by
  constructor
  · intro q0 cmds
    exact le_trans (queueLen_le_nine _) (by norm_num)
  · intro q c h
    simp [queuePush, h]

/-- C5 witness: pushing onto a concretely full queue (9 entries) is a
no-op, and any enqueue sequence stays within the bound. -/
theorem queue_capacity_bound_witness :
    queueLen ((List.replicate 12 "AT".data).foldl queuePush emptyCmdQueue)
      ≤ 10 ∧
    queuePush ((List.replicate 9 "AT".data).foldl queuePush emptyCmdQueue)
        "AT+VER".data
      = (List.replicate 9 "AT".data).foldl queuePush emptyCmdQueue :=
  ⟨queue_capacity_bound.1 emptyCmdQueue (List.replicate 12 "AT".data),
   queue_capacity_bound.2
     ((List.replicate 9 "AT".data).foldl queuePush emptyCmdQueue)
     "AT+VER".data (by decide)⟩

/-- C8: setting the current connection state again never invokes the
observer (and changes nothing); any actual change invokes the single
observer exactly once, synchronously, with the (old, new) pair. -/
theorem setBtState_observer_discipline :
    (∀ st : BtDriver, setBtState st st.btState = (st, [])) ∧
    (∀ (st : BtDriver) (ns : BTConnState), ns ≠ st.btState →
       (setBtState st ns).1.btState = ns ∧
       (setBtState st ns).2 = [BtEvent.stateChange st.btState ns]) := by
  constructor
  · intro st
    simp [setBtState]
  · intro st ns h
    simp [setBtState, h]

/-- C8 witness: at the concrete driver state (connected-idle), a same-state
set emits nothing and a change to Playing emits exactly one (old, new)
observer call. -/
theorem setBtState_observer_discipline_witness :
    setBtState demoDriver demoDriver.btState = (demoDriver, []) ∧
    (setBtState demoDriver .playing).1.btState = BTConnState.playing ∧
    (setBtState demoDriver .playing).2 =
      [BtEvent.stateChange demoDriver.btState .playing] :=
  ⟨setBtState_observer_discipline.1 demoDriver,
   (setBtState_observer_discipline.2 demoDriver .playing (by decide)).1,
   (setBtState_observer_discipline.2 demoDriver .playing (by decide)).2⟩

/-- C10: the ring buffer sacrifices one slot to distinguish full from
empty: every queue state holds at most 9 commands, the length 10 is never
attained, an enqueue at 9 pending commands is dropped unchanged, and 9
pending commands are actually reachable by enqueues from the initial
queue. -/
theorem queue_effective_capacity_nine :
    (∀ q : CmdQueue, queueLen q ≤ 9) ∧
    (∀ q : CmdQueue, queueLen q ≠ 10) ∧
    (∀ (q : CmdQueue) (c : List Char), queueLen q = 9 → queuePush q c = q) ∧
    queueLen ((List.replicate 9 "AT".data).foldl queuePush emptyCmdQueue)
      = 9 := by
  refine ⟨queueLen_le_nine, fun q => ?_, fun q c h => ?_, by decide⟩
  · have := queueLen_le_nine q
    omega
  · have hfull : q.qtail + 1 = q.qhead := (fin10_full_iff _ _).2 h
    simp [queuePush, queueIsFull, hfull]

/-- Helper: unrolling one encoder tick. -/
theorem stateAfter_succ (n : Nat) :
    stateAfter (n + 1) = cdcTickS (stateAfter n) :=
  Function.iterate_succ_apply' _ _ _

/-- Helper: the body of a tick never touches `initStarted`. -/
theorem cdcTickBody_initStarted (s : EncState) (d t : Nat) :
    (cdcTickBody s d t).1.initStarted = s.initStarted := by
  cases hp : s.phase <;> simp [cdcTickBody, hp] <;> split_ifs <;> rfl

/-- Helper: after any tick `initStarted` holds. -/
theorem cdcTickS_initStarted (s : EncState) :
    (cdcTickS s).initStarted = true := by
  unfold cdcTickS cdcTick
  by_cases h : s.initStarted <;> simp [h, cdcTickBody_initStarted]

/-- Helper: once initialised, the Play phase is terminal. -/
theorem cdcTickS_phase_play (s : EncState) (h : s.initStarted = true)
    (hp : s.phase = EncPhase.play) : (cdcTickS s).phase = EncPhase.play := by
  unfold cdcTickS cdcTick
  simp [h, cdcTickBody, hp]

/-- Helper: once initialised, a tick never decreases the phase rank. -/
theorem cdcTickS_rank_mono (s : EncState) (h : s.initStarted = true) :
    phaseRank s.phase ≤ phaseRank (cdcTickS s).phase := by
  unfold cdcTickS cdcTick
  cases hp : s.phase <;> simp [h, cdcTickBody, hp] <;> split_ifs <;>
    simp [phaseRank, hp]

/-- Helper: any state reached by at least one tick is initialised. -/
theorem stateAfter_pos_initStarted (n : Nat) :
    (stateAfter (n + 1)).initStarted = true := by
  rw [stateAfter_succ]
  exact cdcTickS_initStarted _

set_option maxRecDepth 100000 in
/-- C7: the phase machine runs IdleThenPlay for exactly ticks 1-20,
InitPlay for exactly ticks 21-44, PlayLeadIn for exactly ticks 45-54, and
is in Play from tick 55 on, forever; for every initialised state a tick
never decreases the phase rank and Play is terminal; the disc/track
setter never changes the phase. -/
theorem encoder_phase_schedule :
    (∀ n < 20, phaseAfter n = EncPhase.idleThenPlay) ∧
    (∀ n < 44, 20 ≤ n → phaseAfter n = EncPhase.initPlay) ∧
    (∀ n < 54, 44 ≤ n → phaseAfter n = EncPhase.playLeadIn) ∧
    (∀ n : Nat, phaseAfter (54 + n) = EncPhase.play) ∧
    (∀ s : EncState, s.initStarted = true →
       phaseRank s.phase ≤ phaseRank (cdcTickS s).phase) ∧
    (∀ s : EncState, s.initStarted = true → s.phase = EncPhase.play →
       (cdcTickS s).phase = EncPhase.play) ∧
    (∀ (s : EncState) (d t : Nat), (cdc_setDiscTrack s d t).phase = s.phase) := by
  refine ⟨by decide, by decide, by decide, ?_, cdcTickS_rank_mono,
          cdcTickS_phase_play, fun s d t => rfl⟩
  intro n
  induction n with
  | zero => decide
  | succ k ih =>
    have h1 : (stateAfter (54 + k)).initStarted = true := by
      have h' : 54 + k = (53 + k) + 1 := by omega
      rw [h']
      exact stateAfter_pos_initStarted _
    have h3 : 54 + (k + 1) = (54 + k) + 1 := by omega
    show (stateAfter (54 + (k + 1))).phase = EncPhase.play
    rw [h3, stateAfter_succ]
    exact cdcTickS_phase_play _ h1 ih

set_option maxRecDepth 100000 in
/-- C7 witness: the schedule, monotonicity, terminality and the setter
clause at concrete ticks/states. -/
theorem encoder_phase_schedule_witness :
    phaseAfter 5 = EncPhase.idleThenPlay ∧
    phaseAfter 30 = EncPhase.initPlay ∧
    phaseAfter 50 = EncPhase.playLeadIn ∧
    phaseAfter (54 + 6) = EncPhase.play ∧
    phaseRank (stateAfter 60).phase ≤
      phaseRank (cdcTickS (stateAfter 60)).phase ∧
    (cdcTickS (stateAfter 60)).phase = EncPhase.play ∧
    (cdc_setDiscTrack cdcInitState 3 7).phase = cdcInitState.phase :=
  ⟨encoder_phase_schedule.1 5 (by decide),
   encoder_phase_schedule.2.1 30 (by decide) (by decide),
   encoder_phase_schedule.2.2.1 50 (by decide) (by decide),
   encoder_phase_schedule.2.2.2.1 6,
   encoder_phase_schedule.2.2.2.2.1 (stateAfter 60) (by decide),
   encoder_phase_schedule.2.2.2.2.2.1 (stateAfter 60) (by decide) (by decide),
   encoder_phase_schedule.2.2.2.2.2.2 cdcInitState 3 7⟩

/-- C10 witness: after 9 enqueues the queue is at its effective capacity
and a tenth enqueue is dropped. -/
theorem queue_effective_capacity_nine_witness :
    queueLen ((List.replicate 9 "AT".data).foldl queuePush emptyCmdQueue)
      ≤ 9 ∧
    queuePush ((List.replicate 9 "AT".data).foldl queuePush emptyCmdQueue)
        "AT+DEVSTAT".data
      = (List.replicate 9 "AT".data).foldl queuePush emptyCmdQueue :=
  ⟨queue_effective_capacity_nine.1 _,
   queue_effective_capacity_nine.2.2.1
     ((List.replicate 9 "AT".data).foldl queuePush emptyCmdQueue)
     "AT+DEVSTAT".data (by decide)⟩

/-- Helper: `queuePop` already guards against the empty queue, so the
caller-side guard in `handleLine` / `bt1036_loop` is redundant. -/
theorem pop_guard_eq (q : CmdQueue) :
    (if queueIsEmpty q then q else queuePop q) = queuePop q := by
  by_cases h : queueIsEmpty q <;> simp [queuePop, queueIsEmpty, h] at * <;>
    simp [h]

set_option maxRecDepth 10000 in
/-- C2 (amended): for every code byte `code` with `code mod 4 == 0` and the
complement `255 - code`, one scan pass over the frame
`53 2C code ~code` advances the scan pointer by exactly 4 bytes and invokes
the callback exactly once with the mapped event when the code is in the
button table, and zero times when it maps to `unknown` (all unmatched
codes, including the deliberately-inert 0x14/0x38); for any single
corrupted byte the scan iteration advances the pointer by exactly 1 byte
before re-attempting. -/
theorem scan_frame_advance_and_events :
    ∀ code < 256, code % 4 = 0 →
      (vw_scanCommandBytes (bufOfList [0x53, 0x2C, code, 255 - code]) 0 4 =
         (4, if mapButton code = CdcButton.unknown then []
             else [mapButton code])) ∧
      (∀ i < 4, ∀ b < 256,
         b ≠ [0x53, 0x2C, code, 255 - code].getD i 0 →
         scanStep (bufOfList ([0x53, 0x2C, code, 255 - code].set i b)) 0 4 =
           ScanOutcome.resync 1) := by
  intro code hc hm
  constructor
  · exact (by decide :
      ∀ c < 256, c % 4 = 0 →
        vw_scanCommandBytes (bufOfList [0x53, 0x2C, c, 255 - c]) 0 4 =
          (4, if mapButton c = CdcButton.unknown then []
              else [mapButton c])) code hc hm
  · intro i hi b hb hne
    interval_cases i
    · simp only [List.getD, List.get?, Option.getD] at hne
      simp [scanStep, bufOfList, List.set, hne]
    · simp only [List.getD, List.get?, Option.getD] at hne
      simp [scanStep, bufOfList, List.set, hne]
    · simp only [List.getD, List.get?, Option.getD] at hne
      have hck : (b + (255 - code)) % 256 ≠ 255 := by omega
      simp [scanStep, bufOfList, List.set, hck]
    · simp only [List.getD, List.get?, Option.getD] at hne
      have hck : (code + b) % 256 ≠ 255 := by omega
      simp [scanStep, bufOfList, List.set, hck]

/-- C2 witness: a valid NextTrack frame (code 0xF8) yields exactly one
callback and a 4-byte advance; corrupting its code byte to 0x00 makes the
scanner advance by exactly one byte. -/
theorem scan_frame_advance_and_events_witness :
    vw_scanCommandBytes (bufOfList [0x53, 0x2C, 0xF8, 255 - 0xF8]) 0 4 =
      (4, if mapButton 0xF8 = CdcButton.unknown then []
          else [mapButton 0xF8]) ∧
    scanStep (bufOfList ([0x53, 0x2C, 0xF8, 255 - 0xF8].set 2 0)) 0 4 =
      ScanOutcome.resync 1 :=
  ⟨(scan_frame_advance_and_events 0xF8 (by decide) (by decide)).1,
   (scan_frame_advance_and_events 0xF8 (by decide) (by decide)).2
     2 (by decide) 0 (by decide) (by decide)⟩

/-- C4: if a command is in flight and no line at all arrives at this poll,
and more than 2000ms have elapsed since dispatch, then `bt1036_loop`
removes the in-flight command (dequeued, with a timeout log when the front
is non-empty) without re-queueing it, and dispatches the next queued
command — if any — within that same poll (the first poll after the
deadline); with an empty queue nothing is dispatched. -/
theorem cmd_timeout_discipline :
    ∀ (st : BtDriver) (now : Nat),
      st.cmdInProgress = true →
      st.cmdTimestamp ≤ now → now < 2 ^ 32 →
      2000 < now - st.cmdTimestamp →
      u32sub now st.lastStatPollMs ≤ 3000 →
      (bt1036_loop st [] now).1.queue = queuePop st.queue ∧
      ((bt1036_loop st [] now).1.cmdInProgress
         = !(queueIsEmpty (queuePop st.queue))) ∧
      (queueIsEmpty (queuePop st.queue) = false →
         (bt1036_loop st [] now).1.cmdTimestamp = now ∧
         (bt1036_loop st [] now).2 =
           (if (queueFront st.queue).length ≠ 0
            then [BtEvent.cmdTimeout (queueFront st.queue)] else []) ++
           [BtEvent.sent (queueFront (queuePop st.queue))]) ∧
      (queueIsEmpty (queuePop st.queue) = true →
         (bt1036_loop st [] now).2 =
           (if (queueFront st.queue).length ≠ 0
            then [BtEvent.cmdTimeout (queueFront st.queue)] else [])) := by
  intro st now h1 h2 h3 h4 h5
  have htime : u32sub now st.cmdTimestamp > 2000 := by
    rw [u32sub_of_le now st.cmdTimestamp h2 h3]
    exact h4
  have hpoll : ¬ u32sub now st.lastStatPollMs > 3000 := by omega
  by_cases hq : queueIsEmpty (queuePop st.queue) <;>
    simp [bt1036_loop, h1, htime, hpoll, hq, pop_guard_eq]

/-- C4 witness: the concrete driver (in flight since 100ms, two queued
commands) polled at 2200ms with no inbound data: the timed-out command is
dequeued and the next command is sent. -/
theorem cmd_timeout_discipline_witness :
    (bt1036_loop demoDriver [] 2200).1.queue = queuePop demoDriver.queue ∧
    ((bt1036_loop demoDriver [] 2200).1.cmdInProgress
       = !(queueIsEmpty (queuePop demoDriver.queue))) ∧
    (queueIsEmpty (queuePop demoDriver.queue) = false →
       (bt1036_loop demoDriver [] 2200).1.cmdTimestamp = 2200 ∧
       (bt1036_loop demoDriver [] 2200).2 =
         (if (queueFront demoDriver.queue).length ≠ 0
          then [BtEvent.cmdTimeout (queueFront demoDriver.queue)] else []) ++
         [BtEvent.sent (queueFront (queuePop demoDriver.queue))]) ∧
    (queueIsEmpty (queuePop demoDriver.queue) = true →
       (bt1036_loop demoDriver [] 2200).2 =
         (if (queueFront demoDriver.queue).length ≠ 0
          then [BtEvent.cmdTimeout (queueFront demoDriver.queue)] else [])) :=
  cmd_timeout_discipline demoDriver 2200 rfl (by decide) (by decide)
    (by decide) (by decide)

/-- C6: while a command is in flight, the line `+A2DPSTAT=5` moves the
connection state to Playing from any non-Playing state, invoking the
observer exactly once with (old, Playing), and leaves the in-flight
command open (`cmdInProgress` and the queue untouched); the following
`OK` line then closes the in-flight command as successful (dequeue, no
error event). -/
theorem a2dpstat5_then_ok :
    ∀ st : BtDriver, st.cmdInProgress = true →
      st.btState ≠ BTConnState.playing →
      handleLine st ("+A2DPSTAT=5".data) =
        ({ st with btState := BTConnState.playing },
         [BtEvent.stateChange st.btState BTConnState.playing]) ∧
      handleLine { st with btState := BTConnState.playing } ("OK".data) =
        ({ st with btState := BTConnState.playing, cmdInProgress := false,
                   queue := queuePop st.queue },
         [BtEvent.cmdDoneOk]) := by
  intro st hin hne
  constructor
  · have hline : handleLine st ("+A2DPSTAT=5".data) =
        setBtState st .playing := rfl
    rw [hline]
    simp [setBtState]
    intro h
    exact absurd h.symm hne
  · have h1 : handleLine { st with btState := BTConnState.playing }
        ("OK".data) =
        (if st.cmdInProgress then
          ({ st with btState := BTConnState.playing, cmdInProgress := false,
                     queue := if queueIsEmpty st.queue then st.queue
                              else queuePop st.queue },
           ([BtEvent.cmdDoneOk] : List BtEvent))
         else ({ st with btState := BTConnState.playing }, [])) := rfl
    rw [h1, if_pos (by simp [hin]), pop_guard_eq]

/-- C6 witness: the scenario at the concrete connected-idle driver with a
command in flight. -/
theorem a2dpstat5_then_ok_witness :
    handleLine demoDriver ("+A2DPSTAT=5".data) =
      ({ demoDriver with btState := BTConnState.playing },
       [BtEvent.stateChange demoDriver.btState BTConnState.playing]) ∧
    handleLine { demoDriver with btState := BTConnState.playing }
        ("OK".data) =
      ({ demoDriver with btState := BTConnState.playing,
                         cmdInProgress := false,
                         queue := queuePop demoDriver.queue },
       [BtEvent.cmdDoneOk]) :=
  a2dpstat5_then_ok demoDriver rfl (by decide)

/-- C9: the track-metadata payload `"Song Title , Artist Name"` (two
fields, no album) parses to title "Song Title", artist "Artist Name" and
empty album, each field whitespace-trimmed, and marks the track info
valid — from any driver state. -/
theorem trackinfo_two_field_parse :
    ∀ st : BtDriver,
      (handleLine st
          ("+TRACKINFO=Song Title , Artist Name".data)).1.trackInfo.title
        = "Song Title".data ∧
      (handleLine st
          ("+TRACKINFO=Song Title , Artist Name".data)).1.trackInfo.artist
        = "Artist Name".data ∧
      (handleLine st
          ("+TRACKINFO=Song Title , Artist Name".data)).1.trackInfo.album
        = [] ∧
      (handleLine st
          ("+TRACKINFO=Song Title , Artist Name".data)).1.trackInfo.valid
        = true := by
  intro st
  exact ⟨rfl, rfl, rfl, rfl⟩

/-- C9 witness: the parse at the concrete driver state. -/
theorem trackinfo_two_field_parse_witness :
    (handleLine demoDriver
        ("+TRACKINFO=Song Title , Artist Name".data)).1.trackInfo.title
      = "Song Title".data ∧
    (handleLine demoDriver
        ("+TRACKINFO=Song Title , Artist Name".data)).1.trackInfo.artist
      = "Artist Name".data ∧
    (handleLine demoDriver
        ("+TRACKINFO=Song Title , Artist Name".data)).1.trackInfo.album
      = [] ∧
    (handleLine demoDriver
        ("+TRACKINFO=Song Title , Artist Name".data)).1.trackInfo.valid
      = true :=
  trackinfo_two_field_parse demoDriver

end Theorems

